import Mathlib

/-!
Verification of the mcpgate connection/request-management core against its
natural-language specification.  The definitions below are a shallow
embedding of the Go sources: `mcp` package (JSON-RPC envelope types and the
Router), `server` package (ManagedServer, Registry, Manager), `transport`
package (connection-state machine of a transport, from stdio.go), and
`pool` package (ConnectionPool).  JSON numbers (Go float64) are modelled
exactly over ℚ, times over ℕ, and the environment's behaviour (dial
outcomes, upstream reply bytes) is passed in as explicit oracle parameters.
-/

namespace Mcpgate

/-- A decoded JSON value, as produced by Go's json.Unmarshal into
interface\x7b\x7d: strings, numbers (float64, modelled over ℚ), booleans,
null, arrays, and objects (maps, modelled as key/value lists with unique
keys). -/
inductive JVal where
  | str (s : String)
  | num (q : ℚ)
  | jbool (b : Bool)
  | null
  | arr (xs : List JVal)
  | jobj (fields : List (String × JVal))

/-- Key lookup in a decoded JSON object (Go map indexing; keys are unique
after decoding). -/
def lookupField : List (String × JVal) → String → Option JVal
  | [], _ => none
  | (k, v) :: rest, key => if k = key then some v else lookupField rest key

/-- Raw JSON bytes (json.RawMessage): either bytes that decode to a JSON
value, or bytes that are not valid JSON (distinguished by an opaque tag). -/
inductive RawJson where
  | wellFormed (v : JVal)
  | invalid (tag : Nat)

/-- mcp.JSONRPCError (types.go): code, message, optional data. -/
structure JSONRPCError where
  code : Int
  message : String
  data : Option JVal := none

/-- mcp.Request (types.go): jsonrpc version tag, optional id (Go
interface\x7b\x7d, nil meaning absent), method, raw params. -/
structure Request where
  jsonrpc : String
  id : Option JVal
  method : String
  params : Option RawJson

/-- mcp.Response (types.go): version tag, optional id, optional result,
optional error. -/
structure Response where
  jsonrpc : String
  id : Option JVal
  result : Option JVal
  error : Option JSONRPCError

/-- mcp error-code constants (types.go). -/
def ParseErrorCode : Int := -32700

def InvalidRequestCode : Int := -32600

def MethodNotFoundCode : Int := -32601

def InvalidParamsCode : Int := -32602

def InternalErrorCode : Int := -32603

def ServerErrorStartCode : Int := -32099

def ServerErrorEndCode : Int := -32000

/-- Go type assertion `x["code"].(float64)` with default 0 on failure
(initialize in managed.go reads the handshake error code this way). -/
def asNumOr0 : Option JVal → ℚ
  | some (JVal.num q) => q
  | _ => 0

/-- Go type assertion `x["message"].(string)` with default "" on failure. -/
def asStrOrEmpty : Option JVal → String
  | some (JVal.str s) => s
  | _ => ""

/-- json.Unmarshal of raw bytes into map[string]interface\x7b\x7d: succeeds
on a JSON object (its fields) and on JSON null (nil map, no fields); fails
on invalid JSON and on any other JSON value. -/
def decodeMapFields : RawJson → Except Unit (List (String × JVal))
  | RawJson.invalid _ => Except.error ()
  | RawJson.wellFormed (JVal.jobj fields) => Except.ok fields
  | RawJson.wellFormed JVal.null => Except.ok []
  | RawJson.wellFormed _ => Except.error ()

/-- json.Unmarshal of optional raw params into the handlers' struct
\x7bName string\x7d: nil params are not unmarshalled (zero value ""),
invalid JSON or a non-object non-null document fails, a missing or null
"name" field leaves the zero value, a non-string "name" fails. -/
def decodeNameParam : Option RawJson → Except Unit String
  | none => Except.ok ""
  | some (RawJson.invalid _) => Except.error ()
  | some (RawJson.wellFormed JVal.null) => Except.ok ""
  | some (RawJson.wellFormed (JVal.jobj fields)) =>
    match lookupField fields "name" with
    | none => Except.ok ""
    | some JVal.null => Except.ok ""
    | some (JVal.str s) => Except.ok s
    | some _ => Except.error ()
  | some (RawJson.wellFormed _) => Except.error ()

/-- A JSON null decoded into Go's interface\x7b\x7d is the nil interface,
indistinguishable from an absent member; an interface-typed field
therefore reads as nil (none) for both. -/
def decodeIdField : Option JVal → Option JVal
  | none => none
  | some JVal.null => none
  | some v => some v

/-- json.Unmarshal of an "error" member into *mcp.JSONRPCError: absent or
null gives no error object; an object gives the decoded error (an integer
"code", a string "message"); any other value, a fractional code, or a
wrongly typed member is a decode failure. -/
def decodeErrObj : Option JVal → Except Unit (Option JSONRPCError)
  | none => Except.ok none
  | some JVal.null => Except.ok none
  | some (JVal.jobj fields) =>
    (match lookupField fields "code" with
     | none => Except.ok 0
     | some JVal.null => Except.ok 0
     | some (JVal.num q) => if q.den = 1 then Except.ok q.num else Except.error ()
     | some _ => Except.error ()).bind fun code =>
    (match lookupField fields "message" with
     | none => Except.ok ""
     | some JVal.null => Except.ok ""
     | some (JVal.str s) => Except.ok s
     | some _ => Except.error ()).bind fun message =>
    Except.ok (some { code := code, message := message
                      data := decodeIdField (lookupField fields "data") })
  | some _ => Except.error ()

/-- json.Unmarshal of raw upstream bytes into mcp.Response
(routeToServer): invalid JSON fails; a JSON object yields the envelope with
the zero value for missing or null members; JSON null leaves the zero
Response; any other document fails, as does a wrongly typed "jsonrpc"
member or a malformed "error" member. -/
def decodeResponse : RawJson → Except Unit Response
  | RawJson.invalid _ => Except.error ()
  | RawJson.wellFormed JVal.null =>
    Except.ok { jsonrpc := "", id := none, result := none, error := none }
  | RawJson.wellFormed (JVal.jobj fields) =>
    (match lookupField fields "jsonrpc" with
     | none => Except.ok ""
     | some JVal.null => Except.ok ""
     | some (JVal.str s) => Except.ok s
     | some _ => Except.error ()).bind fun ver =>
    (decodeErrObj (lookupField fields "error")).bind fun err =>
    Except.ok
      { jsonrpc := ver
        id := decodeIdField (lookupField fields "id")
        result := decodeIdField (lookupField fields "result")
        error := err }
  | RawJson.wellFormed _ => Except.error ()

/-- Go's strings.HasPrefix, modelled structurally over the character list
(String.startsWith is a well-founded loop that concrete evaluation cannot
reduce). -/
def strHasPfx (s pre : String) : Bool :=
  pre.data.isPrefixOf s.data

/-- Go's int(x) conversion of a float64: truncation toward zero
(T-division of the rational's numerator by its denominator). -/
def goTruncToInt (q : ℚ) : Int :=
  q.num.tdiv (q.den : Int)

/-- Connection state of one transport (stdio.go; the websocket, http and
unix variants share the same connected-flag discipline).  I/O outcomes are
supplied per call as oracle parameters. -/
structure TransportState where
  connected : Bool
  deriving DecidableEq

namespace TransportState

/-- Transport.Connect (stdio.go lines 28-86): an idempotent no-op when
already connected; otherwise the dial either succeeds (flag set) or fails
with a connection error, the state unchanged.  `dialOk` is the oracle for
the outcome of the fresh dial. -/
def connect (t : TransportState) (dialOk : Bool) : TransportState × Option String :=
  if t.connected then (t, none)
  else if dialOk then ({ connected := true }, none)
  else (t, some "failed to start subprocess")

/-- Transport.Disconnect (stdio.go lines 111-132): a no-op when not
connected; otherwise clears the flag and releases the resource. -/
def disconnect (t : TransportState) : TransportState × Option String :=
  if ¬t.connected then (t, none)
  else ({ connected := false }, none)

/-- Transport.SendRequest (stdio.go lines 135-160): fails with "not
connected" when disconnected; otherwise the outcome (raw reply bytes or an
I/O error) is the environment's, supplied as the oracle parameter. -/
def send (t : TransportState) (outcome : Except String RawJson) : Except String RawJson :=
  if ¬t.connected then Except.error "not connected" else outcome

/-- Transport.IsConnected (stdio.go lines 163-167). -/
def isConnected (t : TransportState) : Bool :=
  t.connected

end TransportState

/-- Errors produced inside ManagedServer.Connect (managed.go): a failed
transport dial, a transport send failure during the handshake, handshake
reply bytes that do not decode to a JSON map, or a decoded protocol-level
error object. -/
inductive ConnectErr where
  | dialFailed (msg : String)
  | transportErr (msg : String)
  | unmarshalErr
  | rpcErr (e : JSONRPCError)

/-- server.ManagedServer (managed.go): name, transport kind from the
config, the owned transport's state, capabilities, metadata, and the three
observable flags.  `upstream` is the oracle for the raw bytes (or I/O
error) the transport produces for the next forwarded request. -/
structure ManagedServer where
  name : String
  transportKind : String
  transport : TransportState
  capabilities : List String
  metadata : List (String × JVal)
  connected : Bool
  initialized : Bool
  lastUsed : Nat
  lastError : Option ConnectErr
  upstream : Except String RawJson

namespace ManagedServer

/-- The state of a freshly constructed managed server (NewManagedServer,
managed.go lines 30-55): disconnected, uninitialized, empty capabilities,
zero last-used time. -/
def mk0 (name transportKind : String) (metadata : List (String × JVal))
    (upstream : Except String RawJson) : ManagedServer :=
  { name := name, transportKind := transportKind, transport := { connected := false }
    capabilities := [], metadata := metadata, connected := false, initialized := false
    lastUsed := 0, lastError := none, upstream := upstream }

/-- ManagedServer.initialize (managed.go lines 87-120): sends the fixed
"initialize" request over the transport; a transport failure or
undecodable reply is returned as an error; a decoded reply whose "error"
member is a non-nil JSON object is returned as the decoded JSONRPCError;
otherwise `initialized` is set.  `handshake` is the transport's send
oracle for the handshake round trip. -/
def initHandshake (s : ManagedServer) (handshake : Except String RawJson) :
    ManagedServer × Option ConnectErr :=
  match s.transport.send handshake with
  | Except.error e => (s, some (ConnectErr.transportErr e))
  | Except.ok raw =>
    match decodeMapFields raw with
    | Except.error _ => (s, some ConnectErr.unmarshalErr)
    | Except.ok response =>
      match lookupField response "error" with
      | some (JVal.jobj errMap) =>
        (s, some (ConnectErr.rpcErr
          { code := goTruncToInt (asNumOr0 (lookupField errMap "code"))
            message := asStrOrEmpty (lookupField errMap "message") }))
      | some JVal.null => ({ s with initialized := true }, none)
      | some _ => ({ s with initialized := true }, none)
      | none => ({ s with initialized := true }, none)

/-- ManagedServer.Connect (managed.go lines 58-84): a no-op when the
`connected` flag is set; otherwise dials the transport (recording the
error on failure), sets `connected` and `lastUsed`, and runs the
handshake; a handshake error clears `connected` (the transport is not
disconnected) and is returned. -/
def Connect (s : ManagedServer) (dialOk : Bool) (handshake : Except String RawJson)
    (now : Nat) : ManagedServer × Option ConnectErr :=
  if s.connected then (s, none)
  else
    match s.transport.connect dialOk with
    | (t', some e) =>
      ({ s with transport := t', lastError := some (ConnectErr.dialFailed e) }
       , some (ConnectErr.dialFailed e))
    | (t', none) =>
      let s1 := { s with transport := t', connected := true, lastUsed := now }
      match s1.initHandshake handshake with
      | (s2, some e) =>
        ({ s2 with connected := false, lastError := some e }, some e)
      | (s2, none) => (s2, none)

/-- ManagedServer.Disconnect (managed.go lines 123-133): a no-op when not
connected; otherwise clears `connected` and disconnects the transport. -/
def Disconnect (s : ManagedServer) : ManagedServer × Option String :=
  if ¬s.connected then (s, none)
  else
    let (t', e) := s.transport.disconnect
    ({ s with connected := false, transport := t' }, e)

/-- The locally synthesized error envelope of ManagedServer.SendRequest
(managed.go lines 144-167): a JSON object with the "2.0" version tag and
an internal-error object, and no id member. -/
def synthEnvelope (message : String) : RawJson :=
  RawJson.wellFormed (JVal.jobj
    [("jsonrpc", JVal.str "2.0")
     , ("error", JVal.jobj [("code", JVal.num (-32603)), ("message", JVal.str message)])])

/-- The request map routeToServer hands to ManagedServer.SendRequest: the
envelope re-encoded as a Go map (the "id" key only when the caller's id is
non-nil, the "params" key only when the raw params are present and decode
as JSON). -/
structure ReqMap where
  jsonrpc : String
  id : Option JVal
  method : String
  params : Option JVal

/-- ManagedServer.SendRequest (managed.go lines 137-170): always updates
`lastUsed`; when the server is not both connected and initialized, or when
the transport send fails, returns a locally synthesized internal-error
envelope with a nil Go error; otherwise returns the transport's raw reply
bytes.  The request content does not affect the oracle outcome. -/
def SendRequest (s : ManagedServer) (_request : ReqMap) (outcome : Except String RawJson)
    (now : Nat) : ManagedServer × Except String RawJson :=
  let s1 := { s with lastUsed := now }
  if ¬(s.connected ∧ s.initialized) then
    (s1, Except.ok (synthEnvelope "Server not connected or initialized"))
  else
    match s1.transport.send outcome with
    | Except.error e => (s1, Except.ok (synthEnvelope e))
    | Except.ok resp => (s1, Except.ok resp)

/-- ManagedServer.HasCapability (managed.go lines 187-197): exact string
membership. -/
def HasCapability (s : ManagedServer) (capability : String) : Bool :=
  s.capabilities.contains capability

/-- ManagedServer.SetCapabilities (managed.go lines 207-211). -/
def SetCapabilities (s : ManagedServer) (caps : List String) : ManagedServer :=
  { s with capabilities := caps }

/-- One external call on a managed server, with its environment oracle
values. -/
inductive Op where
  | connect (dialOk : Bool) (handshake : Except String RawJson) (now : Nat)
  | disconnect
  | send (request : ReqMap) (outcome : Except String RawJson) (now : Nat)
  | setCaps (caps : List String)

/-- The state after one call (the returned error/result discarded). -/
def step (s : ManagedServer) : Op → ManagedServer
  | Op.connect dialOk handshake now => (s.Connect dialOk handshake now).1
  | Op.disconnect => s.Disconnect.1
  | Op.send request outcome now => (s.SendRequest request outcome now).1
  | Op.setCaps caps => s.SetCapabilities caps

/-- The state of a fresh managed server after a sequence of calls. -/
def run (init : ManagedServer) (ops : List Op) : ManagedServer :=
  ops.foldl step init

end ManagedServer

/-- server.Manager / server.Registry as seen by the Router: the registered
servers in the registry's enumeration order (Go map iteration order,
arbitrary but fixed for one observation). -/
structure Manager where
  servers : List ManagedServer

namespace Manager

/-- Manager.GetServer, delegating Registry.Get (registry.go lines 48-58):
lookup by unique name, a not-found error modelled as none. -/
def GetServer (m : Manager) (name : String) : Option ManagedServer :=
  m.servers.find? (fun s => s.name = name)

/-- Manager.ListServers, delegating Registry.List (registry.go lines
61-71): a snapshot of all registered servers. -/
def ListServers (m : Manager) : List ManagedServer :=
  m.servers

/-- Manager.ListServersByCapability, delegating Registry.ListByCapability
(registry.go lines 74-86): the servers whose capability set contains the
tag by exact match. -/
def ListServersByCapability (m : Manager) (capability : String) : List ManagedServer :=
  m.servers.filter (fun s => s.HasCapability capability)

end Manager

namespace Router

/-- The per-server summary object built by handleListServers (router.go
lines 469-488). -/
def serverSummary (srv : ManagedServer) : JVal :=
  JVal.jobj
    [("name", JVal.str srv.name)
     , ("connected", JVal.jbool srv.connected)
     , ("initialized", JVal.jbool srv.initialized)
     , ("transport", JVal.str srv.transportKind)
     , ("capabilities", JVal.arr (srv.capabilities.map JVal.str))]

/-- Router.handleListServers (router.go lines 469-488): answered locally,
id echoed. -/
def handleListServers (m : Manager) (req : Request) : Response :=
  { jsonrpc := "2.0", id := req.id
    result := some (JVal.arr ((m.ListServers).map serverSummary)), error := none }

/-- Router.handleGetServer (router.go lines 491-533): invalid params give
-32602, an unknown name gives -32000, otherwise the server detail; the id
is echoed on every branch. -/
def handleGetServer (m : Manager) (req : Request) : Response :=
  match decodeNameParam req.params with
  | Except.error _ =>
    { jsonrpc := "2.0", id := req.id, result := none
      error := some { code := InvalidParamsCode, message := "Invalid parameters" } }
  | Except.ok name =>
    match m.GetServer name with
    | none =>
      { jsonrpc := "2.0", id := req.id, result := none
        error := some { code := ServerErrorEndCode, message := "Server not found" } }
    | some srv =>
      { jsonrpc := "2.0", id := req.id
        result := some (JVal.jobj
          [("name", JVal.str srv.name)
           , ("connected", JVal.jbool srv.connected)
           , ("initialized", JVal.jbool srv.initialized)
           , ("transport", JVal.str srv.transportKind)
           , ("capabilities", JVal.arr (srv.capabilities.map JVal.str))
           , ("metadata", JVal.jobj srv.metadata)])
        error := none }

/-- Router.handleServerStatus (router.go lines 536-575); the last-used
time is reported as a number (the RFC3339 encoding of time.Time is
abstracted to the ℕ time model). -/
def handleServerStatus (m : Manager) (req : Request) : Response :=
  match decodeNameParam req.params with
  | Except.error _ =>
    { jsonrpc := "2.0", id := req.id, result := none
      error := some { code := InvalidParamsCode, message := "Invalid parameters" } }
  | Except.ok name =>
    match m.GetServer name with
    | none =>
      { jsonrpc := "2.0", id := req.id, result := none
        error := some { code := ServerErrorEndCode, message := "Server not found" } }
    | some srv =>
      { jsonrpc := "2.0", id := req.id
        result := some (JVal.jobj
          [("connected", JVal.jbool srv.connected)
           , ("initialized", JVal.jbool srv.initialized)
           , ("last_used", JVal.num srv.lastUsed)])
        error := none }

/-- Router.handleCapabilities (router.go lines 578-630): with a non-empty
name, that server's capabilities; otherwise the per-server capability
map. -/
def handleCapabilities (m : Manager) (req : Request) : Response :=
  match decodeNameParam req.params with
  | Except.error _ =>
    { jsonrpc := "2.0", id := req.id, result := none
      error := some { code := InvalidParamsCode, message := "Invalid parameters" } }
  | Except.ok name =>
    if name ≠ "" then
      match m.GetServer name with
      | none =>
        { jsonrpc := "2.0", id := req.id, result := none
          error := some { code := ServerErrorEndCode, message := "Server not found" } }
      | some srv =>
        { jsonrpc := "2.0", id := req.id
          result := some (JVal.jobj
            [("name", JVal.str srv.name)
             , ("capabilities", JVal.arr (srv.capabilities.map JVal.str))])
          error := none }
    else
      { jsonrpc := "2.0", id := req.id
        result := some (JVal.jobj ((m.ListServers).map
          (fun srv => (srv.name, JVal.arr (srv.capabilities.map JVal.str)))))
        error := none }

/-- Router.extractCapability (router.go lines 730-741): capability by
method-name prefix, empty when none matches. -/
def extractCapability (method : String) : String :=
  if strHasPfx method "tools/" then "tools"
  else if strHasPfx method "resources/" then "resources"
  else if strHasPfx method "prompts/" then "prompts"
  else ""

/-- The explicit routing hint of findTargetServer (router.go lines
704-714): params present, decodable as a JSON map, carrying a string
"_server" member that resolves in the registry. -/
def explicitTarget (m : Manager) (req : Request) : Option ManagedServer :=
  match req.params with
  | none => none
  | some raw =>
    match decodeMapFields raw with
    | Except.error _ => none
    | Except.ok fields =>
      match lookupField fields "_server" with
      | some (JVal.str serverName) => m.GetServer serverName
      | _ => none

/-- Router.findTargetServer (router.go lines 702-727): the resolved
explicit hint first, else the first server advertising the capability
inferred from the method name, else none. -/
def findTargetServer (m : Manager) (req : Request) : Option ManagedServer :=
  match explicitTarget m req with
  | some srv => some srv
  | none =>
    let capability := extractCapability req.method
    if capability ≠ "" then (m.ListServersByCapability capability).head?
    else none

/-- The request map routeToServer builds before sending (router.go lines
659-671): version, method, the "id" key only when the caller's id is
non-nil, the "params" key only when the raw params decode as JSON. -/
def buildReqMap (req : Request) : ManagedServer.ReqMap :=
  { jsonrpc := req.jsonrpc, id := req.id, method := req.method
    params :=
      match req.params with
      | some (RawJson.wellFormed v) => some v
      | _ => none }

/-- The outcome of one routeToServer call: the response handed back to the
caller, and — as observable instrumentation of the send effect — the name
of the chosen server and the request map handed to its SendRequest, when a
send happened. -/
structure RouteResult where
  resp : Response
  sent : Option (String × ManagedServer.ReqMap)

/-- The target-resolution step of Router.routeToServer (router.go lines
633-653): the findTargetServer result, else the first server of the full
enumeration, else none (empty registry). -/
def chosenTarget (m : Manager) (req : Request) : Option ManagedServer :=
  match findTargetServer m req with
  | some t => some t
  | none => (m.ListServers).head?

/-- The forwarding body of Router.routeToServer (router.go lines 655-699):
answer -32000 "No servers available" when no target was chosen, otherwise
forward the rebuilt envelope; a send error becomes an internal-error
envelope, undecodable reply bytes a parse-error envelope, and a decoded
reply is returned as is. -/
def routeToServerTraced (m : Manager) (req : Request) (now : Nat) : RouteResult :=
  match chosenTarget m req with
  | none =>
    { resp := { jsonrpc := "2.0", id := req.id, result := none
                error := some { code := ServerErrorEndCode, message := "No servers available" } }
      sent := none }
  | some srv =>
    let reqMap := buildReqMap req
    match (srv.SendRequest reqMap srv.upstream now).2 with
    | Except.error e =>
      { resp := { jsonrpc := "2.0", id := req.id, result := none
                  error := some { code := InternalErrorCode, message := e } }
        sent := some (srv.name, reqMap) }
    | Except.ok respData =>
      match decodeResponse respData with
      | Except.error _ =>
        { resp := { jsonrpc := "2.0", id := req.id, result := none
                    error := some { code := ParseErrorCode
                                    message := "Failed to parse upstream response" } }
          sent := some (srv.name, reqMap) }
      | Except.ok response => { resp := response, sent := some (srv.name, reqMap) }

/-- The response component of routeToServer. -/
def routeToServer (m : Manager) (req : Request) (now : Nat) : Response :=
  (routeToServerTraced m req now).resp

/-- Router.Route (router.go lines 440-466): version check first, then the
four gateway-local methods, then upstream routing. -/
def Route (m : Manager) (req : Request) (now : Nat) : Response :=
  if req.jsonrpc ≠ "2.0" then
    { jsonrpc := "2.0", id := none, result := none
      error := some { code := InvalidRequestCode, message := "Invalid JSON-RPC version" } }
  else if req.method = "gateway/list_servers" then handleListServers m req
  else if req.method = "gateway/get_server" then handleGetServer m req
  else if req.method = "gateway/server_status" then handleServerStatus m req
  else if req.method = "gateway/capabilities" then handleCapabilities m req
  else routeToServer m req now

end Router

namespace Pool

/-- pool.PooledTransport (connection_pool.go lines 13-20): the wrapped
transport is represented by its identity (`id`, the Go pointer) and its
connected flag; plus the pool bookkeeping fields. -/
structure PooledTransport where
  id : Nat
  connected : Bool
  healthScore : ℚ
  createdAt : Nat
  lastUsed : Nat
  requestCount : Nat
  deriving DecidableEq

/-- The health-score update of ReturnTransport (connection_pool.go lines
96-101): multiply by 0.9 on error, average with 1.0 on success.  Go's
float64 arithmetic is modelled exactly over ℚ. -/
def updateHealth (score : ℚ) (isErr : Bool) : ℚ :=
  if isErr then score * (9 / 10) else (score + 1) / 2

/-- pool.ConnectionPool.ReturnTransport (connection_pool.go lines 88-106)
restricted to one transport kind: locate the wrapper by identity, update
its health score, and silently no-op when the transport is not pooled. -/
def ReturnTransport : List PooledTransport → Nat → Bool → List PooledTransport
  | [], _, _ => []
  | p :: rest, tid, isErr =>
    if p.id = tid then { p with healthScore := updateHealth p.healthScore isErr } :: rest
    else p :: ReturnTransport rest tid isErr

/-- The in-place effect of `append(transports[:i], transports[i+1:]...)`
on the shared backing array of length n: positions i..n-2 take the old
values of i+1..n-1 and position n-1 keeps the old last element. -/
def shiftRemove (arr : List PooledTransport) (i : Nat) : List PooledTransport :=
  arr.take i ++ arr.drop (i + 1) ++ arr.drop (arr.length - 1)

/-- What the scan of GetTransport produced: the returned entry if one was
hit, the backing array as left by the shifts and counter updates, and
whether any eviction assignment (which stores length n-1) happened. -/
structure ScanOut where
  found : Option PooledTransport
  arr : List PooledTransport
  removed : Bool

/-- The `for i, pooled := range transports` scan of GetTransport
(connection_pool.go lines 54-64), with Go's slice aliasing: the range
reads position i of the shared backing array each iteration, an eviction
shifts that array in place (so the element after an evicted one is
skipped), and the usage-counter update goes through the entry's pointer
(all aliases of it in the backing array).  `remaining` counts the loop
iterations still to run (n - i). -/
def scanLoop (now : Nat) : List PooledTransport → Nat → Nat → Bool → ScanOut
  | arr, _, 0, removed => { found := none, arr := arr, removed := removed }
  | arr, i, remaining + 1, removed =>
    match arr[i]? with
    | none => { found := none, arr := arr, removed := removed }
    | some pooled =>
      if pooled.connected ∧ (1 : ℚ) / 2 < pooled.healthScore then
        let updated := { pooled with lastUsed := now, requestCount := pooled.requestCount + 1 }
        { found := some updated
          arr := arr.map (fun p => if p.id = pooled.id then updated else p)
          removed := removed }
      else if ¬pooled.connected then
        scanLoop now (shiftRemove arr i) (i + 1) remaining true
      else
        scanLoop now arr (i + 1) remaining removed

/-- pool.ConnectionPool.GetTransport (connection_pool.go lines 46-85)
restricted to one transport kind: scan for a connected entry with health
above 0.5 (evicting disconnected ones in passing), else create and append
a new unconnected wrapper with health 1.0 when the original entry count is
below the per-kind maximum, else fail pool-exhausted.  The stored slice
keeps the length last assigned during the scan (n-1 after any eviction,
regardless of how many evictions ran). -/
def GetTransport (pool : List PooledTransport) (maxPerType : Nat) (now : Nat)
    (freshId : Nat) : Except String PooledTransport × List PooledTransport :=
  let n := pool.length
  let out := scanLoop now pool 0 n false
  let stored := out.arr.take (n - (if out.removed then 1 else 0))
  match out.found with
  | some t => (Except.ok t, stored)
  | none =>
    if n < maxPerType then
      let newT : PooledTransport :=
        { id := freshId, connected := false, healthScore := 1, createdAt := now
          lastUsed := now, requestCount := 0 }
      (Except.ok newT, stored ++ [newT])
    else
      (Except.error "connection pool exhausted", stored)

end Pool

namespace Manager

/-- How one connectWithRetry call ended (registry.go lines 158-178):
connect succeeded, the context deadline fired during a backoff wait, or
the last connect error after exhausting the attempts. -/
inductive RetryResult where
  | ok
  | ctxErr
  | failed
  deriving DecidableEq

/-- The observable outcome of connectWithRetry: the result, the number of
Connect calls made, the backoff sleeps performed (in seconds, in order),
and the remaining deadline budget in seconds. -/
structure RetryOut where
  result : RetryResult
  attempts : Nat
  waits : List Nat
  remaining : Nat
  deriving DecidableEq

/-- The `for attempt := 1; attempt <= maxRetries; attempt++` loop of
connectWithRetry (registry.go lines 160-176): try Connect (outcome given
by the oracle per attempt number); on failure, when attempts remain, wait
`attempt` seconds — aborting with the context error when the remaining
deadline budget is smaller than the wait.  `remaining` is the number of
loop iterations still permitted. -/
def retryLoop (outcome : Nat → Bool) : Nat → Nat → Nat → RetryOut
  | _, 0, budget => { result := RetryResult.failed, attempts := 0, waits := [], remaining := budget }
  | attempt, r + 1, budget =>
    if outcome attempt then
      { result := RetryResult.ok, attempts := 1, waits := [], remaining := budget }
    else if r = 0 then
      { result := RetryResult.failed, attempts := 1, waits := [], remaining := budget }
    else
      let backoff := attempt
      if budget < backoff then
        { result := RetryResult.ctxErr, attempts := 1, waits := [], remaining := 0 }
      else
        let rest := retryLoop outcome (attempt + 1) r (budget - backoff)
        { result := rest.result, attempts := rest.attempts + 1
          waits := backoff :: rest.waits, remaining := rest.remaining }

/-- Manager.connectWithRetry (registry.go lines 158-178), starting at
attempt 1. -/
def connectWithRetry (outcome : Nat → Bool) (maxRetries budget : Nat) : RetryOut :=
  retryLoop outcome 1 maxRetries budget

/-- Manager.Start (registry.go lines 118-155): after registration,
connects every managed server via connectWithRetry with 3 attempts under
one shared deadline, logging (not surfacing) failures, and returns nil
unconditionally.  The pair carries the returned error (always none) and
the deadline budget left after the sequential retry sequences. -/
def Start (outcomes : List (Nat → Bool)) (budget : Nat) : Option String × Nat :=
  (none, outcomes.foldl (fun b oc => (connectWithRetry oc 3 b).remaining) budget)

end Manager

/-- The four gateway-local methods dispatched by Router.Route (router.go
lines 453-462). -/
def isGatewayMethod (method : String) : Bool :=
  method = "gateway/list_servers" || method = "gateway/get_server" ||
  method = "gateway/server_status" || method = "gateway/capabilities"

namespace Fixtures

/-- Handshake reply bytes with no error member (JSON null decodes to a nil
map): the success case of initialize. -/
def hsNoError : Except String RawJson :=
  Except.ok (RawJson.wellFormed JVal.null)

/-- Handshake reply bytes carrying a protocol-level error object. -/
def hsErrObj : Except String RawJson :=
  Except.ok (RawJson.wellFormed (JVal.jobj
    [("error", JVal.jobj [("code", JVal.num (-32601)), ("message", JVal.str "nope")])]))

/-- One registered server that is neither connected nor initialized. -/
def srvDown : ManagedServer :=
  ManagedServer.mk0 "a" "stdio" [] (Except.ok (RawJson.wellFormed JVal.null))

/-- A manager holding only `srvDown`. -/
def mgrDown : Manager :=
  { servers := [srvDown] }

/-- One registered server that is connected and initialized, with a live
transport. -/
def srvUp : ManagedServer :=
  { name := "a", transportKind := "stdio", transport := { connected := true }
    capabilities := ["tools"], metadata := [], connected := true, initialized := true
    lastUsed := 0, lastError := none, upstream := Except.ok (RawJson.wellFormed JVal.null) }

/-- A manager holding only `srvUp`. -/
def mgrUp : Manager :=
  { servers := [srvUp] }

/-- A well-versioned request with id 123 and a non-gateway method, no
params. -/
def reqFwd : Request :=
  { jsonrpc := "2.0", id := some (JVal.num 123), method := "foo/bar", params := none }

/-- A request with the wrong protocol version and id 123. -/
def reqBadVersion : Request :=
  { jsonrpc := "1.0", id := some (JVal.num 123), method := "gateway/list_servers", params := none }

/-- A request carrying the "_server" routing hint next to an ordinary
parameter. -/
def reqHint : Request :=
  { jsonrpc := "2.0", id := some (JVal.num 7), method := "foo"
    params := some (RawJson.wellFormed (JVal.jobj
      [("_server", JVal.str "a"), ("x", JVal.num 1)])) }

/-- A pooled entry as GetTransport creates it: connected (by the caller),
health 1.0. -/
def entryHealthy : Pool.PooledTransport :=
  { id := 0, connected := true, healthScore := 1, createdAt := 0, lastUsed := 0
    requestCount := 0 }

/-- The singleton pool after n consecutive error returns of its entry. -/
def poolAfterErrors : Nat → List Pool.PooledTransport
  | 0 => [entryHealthy]
  | n + 1 => Pool.ReturnTransport (poolAfterErrors n) 0 true

/-- A pool whose first entry is disconnected and whose second and third
entries are both eligible (connected, health 1.0). -/
def poolSkip : List Pool.PooledTransport :=
  [ { id := 0, connected := false, healthScore := 1, createdAt := 0, lastUsed := 0
      requestCount := 0 }
    , { id := 1, connected := true, healthScore := 1, createdAt := 0, lastUsed := 0
        requestCount := 0 }
    , { id := 2, connected := true, healthScore := 1, createdAt := 0, lastUsed := 0
        requestCount := 0 } ]

/-- A pool with two disconnected entries and nothing else. -/
def poolTwoDown : List Pool.PooledTransport :=
  [ { id := 0, connected := false, healthScore := 1, createdAt := 0, lastUsed := 0
      requestCount := 0 }
    , { id := 1, connected := false, healthScore := 1, createdAt := 0, lastUsed := 0
        requestCount := 0 } ]

/-- Connect successfully, disconnect, then reconnect into a failing
handshake: the trace exhibiting a stale `initialized` flag. -/
def opsStaleInit : List ManagedServer.Op :=
  [ ManagedServer.Op.connect true hsNoError 1
    , ManagedServer.Op.disconnect
    , ManagedServer.Op.connect true hsErrObj 2 ]

/-- A well-versioned request for a method under the "tools/" prefix. -/
def reqTools : Request :=
  { jsonrpc := "2.0", id := none, method := "tools/list", params := none }

/-- A well-versioned gateway-local request with id 123. -/
def reqGateway : Request :=
  { jsonrpc := "2.0", id := some (JVal.num 123), method := "gateway/list_servers"
    params := none }

end Fixtures

namespace Router

/-- handleListServers echoes the caller's id. -/
lemma handleListServers_id (m : Manager) (req : Request) :
    (handleListServers m req).id = req.id := rfl

/-- handleGetServer echoes the caller's id on every branch. -/
lemma handleGetServer_id (m : Manager) (req : Request) :
    (handleGetServer m req).id = req.id := by
  cases h : decodeNameParam req.params with
  | error e => simp [handleGetServer, h]
  | ok name => cases hg : m.GetServer name <;> simp [handleGetServer, h, hg]

/-- handleServerStatus echoes the caller's id on every branch. -/
lemma handleServerStatus_id (m : Manager) (req : Request) :
    (handleServerStatus m req).id = req.id := by
  cases h : decodeNameParam req.params with
  | error e => simp [handleServerStatus, h]
  | ok name => cases hg : m.GetServer name <;> simp [handleServerStatus, h, hg]

/-- handleCapabilities echoes the caller's id on every branch. -/
lemma handleCapabilities_id (m : Manager) (req : Request) :
    (handleCapabilities m req).id = req.id := by
  cases h : decodeNameParam req.params with
  | error e => simp [handleCapabilities, h]
  | ok name =>
    by_cases hn : name = ""
    · simp [handleCapabilities, h, hn]
    · cases hg : m.GetServer name <;> simp [handleCapabilities, h, hn, hg]

/-- A wrong version is rejected with the fixed envelope (which carries no
id). -/
lemma Route_version (m : Manager) (req : Request) (now : Nat)
    (hv : req.jsonrpc ≠ "2.0") :
    Route m req now =
      { jsonrpc := "2.0", id := none, result := none
        error := some { code := InvalidRequestCode, message := "Invalid JSON-RPC version" } } := by
  simp [Route, hv]

/-- A well-versioned non-gateway request goes to routeToServer. -/
lemma Route_nonGateway (m : Manager) (req : Request) (now : Nat)
    (hv : req.jsonrpc = "2.0") (hg : isGatewayMethod req.method = false) :
    Route m req now = routeToServer m req now := by
  simp only [isGatewayMethod, Bool.or_eq_false_iff, decide_eq_false_iff_not] at hg
  simp [Route, hv, hg.1.1.1, hg.1.1.2, hg.1.2, hg.2]

/-- Two character lists with distinct heads cannot both be prefixes of the
same list. -/
lemma isPrefixOf_head_ne {c₁ c₂ : Char} (hne : (c₁ == c₂) = false) (p₁ p₂ m : List Char) :
    List.isPrefixOf (c₁ :: p₁) m = true → List.isPrefixOf (c₂ :: p₂) m = false := by
  cases m with
  | nil => intro h; simp [List.isPrefixOf] at h
  | cons d ds =>
    intro h
    simp only [List.isPrefixOf, Bool.and_eq_true, beq_iff_eq] at h
    rcases h with ⟨h1, _⟩
    subst h1
    have h2 : (c₂ == c₁) = false := by
      rw [beq_eq_false_iff_ne] at hne ⊢
      exact fun hh => hne hh.symm
    simp [List.isPrefixOf, h2]

/-- A method under "resources/" is not under "tools/". -/
lemma resources_not_tools (m : String) (h : strHasPfx m "resources/" = true) :
    strHasPfx m "tools/" = false := by
  have hr : ("resources/" : String).data = 'r' :: "esources/".data := rfl
  have ht : ("tools/" : String).data = 't' :: "ools/".data := rfl
  unfold strHasPfx at h ⊢
  rw [hr] at h
  rw [ht]
  exact isPrefixOf_head_ne (by decide) _ _ _ h

/-- A method under "prompts/" is not under "tools/". -/
lemma prompts_not_tools (m : String) (h : strHasPfx m "prompts/" = true) :
    strHasPfx m "tools/" = false := by
  have hr : ("prompts/" : String).data = 'p' :: "rompts/".data := rfl
  have ht : ("tools/" : String).data = 't' :: "ools/".data := rfl
  unfold strHasPfx at h ⊢
  rw [hr] at h
  rw [ht]
  exact isPrefixOf_head_ne (by decide) _ _ _ h

/-- A method under "prompts/" is not under "resources/". -/
lemma prompts_not_resources (m : String) (h : strHasPfx m "prompts/" = true) :
    strHasPfx m "resources/" = false := by
  have hr : ("prompts/" : String).data = 'p' :: "rompts/".data := rfl
  have ht : ("resources/" : String).data = 'r' :: "esources/".data := rfl
  unfold strHasPfx at h ⊢
  rw [hr] at h
  rw [ht]
  exact isPrefixOf_head_ne (by decide) _ _ _ h

/-- With an empty registry the explicit routing hint never resolves. -/
lemma explicitTarget_of_empty (m : Manager) (req : Request) (h : m.servers = []) :
    explicitTarget m req = none := by
  unfold explicitTarget
  cases hp : req.params with
  | none => rfl
  | some raw =>
    cases hd : decodeMapFields raw with
    | error e => simp [hd]
    | ok fields =>
      cases hl : lookupField fields "_server" with
      | none => simp [hd, hl]
      | some v =>
        cases v with
        | str nm => simp [hd, hl, Manager.GetServer, h]
        | num a => simp [hd, hl]
        | jbool a => simp [hd, hl]
        | null => simp [hd, hl]
        | arr a => simp [hd, hl]
        | jobj a => simp [hd, hl]

end Router

namespace ManagedServer

/-- initHandshake either fails leaving the state untouched or succeeds
setting exactly the `initialized` flag. -/
lemma initHandshake_cases (s : ManagedServer) (hs : Except String RawJson) :
    (∃ e, s.initHandshake hs = (s, some e)) ∨
      s.initHandshake hs = ({ s with initialized := true }, none) := by
  rcases hsend : s.transport.send hs with e | raw
  · exact Or.inl ⟨ConnectErr.transportErr e, by simp [initHandshake, hsend]⟩
  · rcases hdec : decodeMapFields raw with u | response
    · exact Or.inl ⟨ConnectErr.unmarshalErr, by simp [initHandshake, hsend, hdec]⟩
    · rcases hl : lookupField response "error" with _ | v
      · exact Or.inr (by simp [initHandshake, hsend, hdec, hl])
      · cases v with
        | jobj em =>
          exact Or.inl ⟨ConnectErr.rpcErr
            { code := goTruncToInt (asNumOr0 (lookupField em "code"))
              message := asStrOrEmpty (lookupField em "message") }
            , by simp [initHandshake, hsend, hdec, hl]⟩
        | null => exact Or.inr (by simp [initHandshake, hsend, hdec, hl])
        | str a => exact Or.inr (by simp [initHandshake, hsend, hdec, hl])
        | num a => exact Or.inr (by simp [initHandshake, hsend, hdec, hl])
        | jbool a => exact Or.inr (by simp [initHandshake, hsend, hdec, hl])
        | arr a => exact Or.inr (by simp [initHandshake, hsend, hdec, hl])

/-- What a Connect call can do to the two flags: leave `initialized`
untouched, or succeed (setting both flags). -/
lemma Connect_initialized (s : ManagedServer) (dialOk : Bool)
    (hs : Except String RawJson) (now : Nat) :
    (s.Connect dialOk hs now).1.initialized = s.initialized ∨
      ((s.Connect dialOk hs now).1.initialized = true ∧
        (s.Connect dialOk hs now).1.connected = true) := by
  by_cases hc : s.connected = true
  · left
    simp [Connect, hc]
  · simp only [Bool.not_eq_true] at hc
    rcases ht : s.transport.connect dialOk with ⟨t', e⟩
    cases e with
    | some msg => left; simp [Connect, hc, ht]
    | none =>
      rcases initHandshake_cases { s with transport := t', connected := true, lastUsed := now }
          hs with ⟨e, he⟩ | he
      · left
        simp [Connect, hc, ht, he]
      · right
        simp [Connect, hc, ht, he]

/-- The state part of SendRequest: only `lastUsed` changes. -/
lemma SendRequest_state (s : ManagedServer) (rm : ReqMap) (o : Except String RawJson)
    (n : Nat) : (s.SendRequest rm o n).1 = { s with lastUsed := n } := by
  by_cases hci : s.connected ∧ s.initialized
  · rcases hsend : { s with lastUsed := n }.transport.send o with e | resp <;>
      simp [SendRequest, hci, hsend]
  · simp [SendRequest, hci]

/-- Disconnect never touches `initialized`. -/
lemma Disconnect_initialized (s : ManagedServer) :
    s.Disconnect.1.initialized = s.initialized := by
  by_cases hc : s.connected = true
  · rcases ht : s.transport.disconnect with ⟨t', e⟩
    simp [Disconnect, hc, ht]
  · simp only [Bool.not_eq_true] at hc
    simp [Disconnect, hc]

/-- A step can set `initialized` only by a connect whose handshake
succeeded, and such a step leaves `connected` set. -/
lemma step_initialized_mono (s : ManagedServer) (op : Op) :
    (step s op).initialized = true → s.initialized = true ∨ (step s op).connected = true := by
  cases op with
  | connect dialOk handshake now =>
    rcases Connect_initialized s dialOk handshake now with hi | ⟨_, hc⟩
    · simp only [step]
      rw [hi]
      exact fun h => Or.inl h
    · simp only [step]
      exact fun _ => Or.inr hc
  | disconnect =>
    simp only [step]
    rw [Disconnect_initialized]
    exact fun h => Or.inl h
  | send request outcome now =>
    simp only [step]
    rw [SendRequest_state]
    exact fun h => Or.inl h
  | setCaps caps =>
    simp only [step, SetCapabilities]
    exact fun h => Or.inl h

/-- Running one more operation is stepping the run of the first ones. -/
lemma run_concat (init : ManagedServer) (l : List Op) (op : Op) :
    run init (l ++ [op]) = step (run init l) op := by
  simp [run, List.foldl_append]

/-- Full outcome of Connect on a not-connected server whose transport
connects: a handshake reply decoding to a map with an error object clears
`connected`, leaves `initialized` unchanged and returns the decoded
error; a reply without an error object sets `initialized` and keeps
`connected`. -/
lemma Connect_handshake_outcome (s : ManagedServer) (dialOk : Bool)
    (fields : List (String × JVal)) (now : Nat)
    (hnc : s.connected = false)
    (hdial : s.transport.connected = true ∨ dialOk = true) :
    (∀ em, lookupField fields "error" = some (JVal.jobj em) →
      (s.Connect dialOk (Except.ok (RawJson.wellFormed (JVal.jobj fields))) now).1.connected
          = false ∧
      (s.Connect dialOk (Except.ok (RawJson.wellFormed (JVal.jobj fields))) now).1.initialized
          = s.initialized ∧
      (s.Connect dialOk (Except.ok (RawJson.wellFormed (JVal.jobj fields))) now).2
          = some (ConnectErr.rpcErr
              { code := goTruncToInt (asNumOr0 (lookupField em "code"))
                message := asStrOrEmpty (lookupField em "message") })) ∧
    ((∀ em, lookupField fields "error" ≠ some (JVal.jobj em)) →
      (s.Connect dialOk (Except.ok (RawJson.wellFormed (JVal.jobj fields))) now).1.connected
          = true ∧
      (s.Connect dialOk (Except.ok (RawJson.wellFormed (JVal.jobj fields))) now).1.initialized
          = true ∧
      (s.Connect dialOk (Except.ok (RawJson.wellFormed (JVal.jobj fields))) now).2 = none) := by
  have hconn : s.transport.connect dialOk = ({ connected := true }, none) := by
    by_cases hc : s.transport.connected = true
    · have heta : s.transport = { connected := s.transport.connected } := rfl
      have heq : s.transport = { connected := true } := by rw [heta, hc]
      rw [heq]
      simp [TransportState.connect]
    · simp only [Bool.not_eq_true] at hc
      rcases hdial with h | h
      · rw [h] at hc
        exact absurd hc (by simp)
      · simp [TransportState.connect, hc, h]
  constructor
  · intro em hem
    simp [ManagedServer.Connect, hnc, hconn, ManagedServer.initHandshake,
      TransportState.send, decodeMapFields, hem]
  · intro hne
    rcases hl : lookupField fields "error" with _ | v
    · simp [ManagedServer.Connect, hnc, hconn, ManagedServer.initHandshake,
        TransportState.send, decodeMapFields, hl]
    · cases v with
      | jobj em => exact absurd hl (hne em)
      | null =>
        simp [ManagedServer.Connect, hnc, hconn, ManagedServer.initHandshake,
          TransportState.send, decodeMapFields, hl]
      | str a =>
        simp [ManagedServer.Connect, hnc, hconn, ManagedServer.initHandshake,
          TransportState.send, decodeMapFields, hl]
      | num a =>
        simp [ManagedServer.Connect, hnc, hconn, ManagedServer.initHandshake,
          TransportState.send, decodeMapFields, hl]
      | jbool a =>
        simp [ManagedServer.Connect, hnc, hconn, ManagedServer.initHandshake,
          TransportState.send, decodeMapFields, hl]
      | arr a =>
        simp [ManagedServer.Connect, hnc, hconn, ManagedServer.initHandshake,
          TransportState.send, decodeMapFields, hl]

end ManagedServer

namespace Claims

open Fixtures

/-- Claim C2, counterexample: a fresh ManagedServer whose transport dial
succeeds but whose handshake reply carries a protocol-level error object
ends Connect with connected = false — not connected = true as the claim
states — (initialized = false as claimed), and the decoded error is
returned. -/
theorem c2_counterexample :
    (srvDown.Connect true hsErrObj 7).1.connected = false ∧
    (srvDown.Connect true hsErrObj 7).1.initialized = false ∧
    (srvDown.Connect true hsErrObj 7).2 =
      some (ConnectErr.rpcErr { code := -32601, message := "nope" }) := by
  refine ⟨rfl, rfl, ?_⟩
  rfl

/-- Claim C2, amended: when the transport connects (already-open transport
or successful dial) but the decoded handshake reply carries an error
object, Connect ends with connected = false, initialized unchanged (false
on a first connect cycle), and returns the decoded error; when the decoded
reply carries no error object, Connect ends with connected = true and sets
initialized. -/
theorem c2_handshake_error (s : ManagedServer) (dialOk : Bool)
    (fields : List (String × JVal)) (now : Nat)
    (hnc : s.connected = false)
    (hdial : s.transport.connected = true ∨ dialOk = true) :
    (∀ em, lookupField fields "error" = some (JVal.jobj em) →
      (s.Connect dialOk (Except.ok (RawJson.wellFormed (JVal.jobj fields))) now).1.connected
          = false ∧
      (s.Connect dialOk (Except.ok (RawJson.wellFormed (JVal.jobj fields))) now).1.initialized
          = s.initialized ∧
      (s.Connect dialOk (Except.ok (RawJson.wellFormed (JVal.jobj fields))) now).2
          = some (ConnectErr.rpcErr
              { code := goTruncToInt (asNumOr0 (lookupField em "code"))
                message := asStrOrEmpty (lookupField em "message") })) ∧
    ((∀ em, lookupField fields "error" ≠ some (JVal.jobj em)) →
      (s.Connect dialOk (Except.ok (RawJson.wellFormed (JVal.jobj fields))) now).1.connected
          = true ∧
      (s.Connect dialOk (Except.ok (RawJson.wellFormed (JVal.jobj fields))) now).1.initialized
          = true ∧
      (s.Connect dialOk (Except.ok (RawJson.wellFormed (JVal.jobj fields))) now).2 = none) :=
  ManagedServer.Connect_handshake_outcome s dialOk fields now hnc hdial

/-- Claim C2, witness for the amended theorem at a concrete fresh server
and concrete handshake replies. -/
theorem c2_handshake_error_witness :
    (srvDown.Connect true
        (Except.ok (RawJson.wellFormed (JVal.jobj
          [("error", JVal.jobj [("code", JVal.num (-32601)), ("message", JVal.str "nope")])])))
        7).2
      = some (ConnectErr.rpcErr { code := -32601, message := "nope" }) ∧
    (srvDown.Connect true (Except.ok (RawJson.wellFormed (JVal.jobj [("result", JVal.null)])))
        7).1.initialized = true := by
  constructor
  · have h := (c2_handshake_error srvDown true
      [("error", JVal.jobj [("code", JVal.num (-32601)), ("message", JVal.str "nope")])]
      7 rfl (Or.inr rfl)).1
      [("code", JVal.num (-32601)), ("message", JVal.str "nope")] rfl
    rw [h.2.2]
    rfl
  · exact ((c2_handshake_error srvDown true [("result", JVal.null)] 7 rfl (Or.inr rfl)).2
      (by intro em h; simp [lookupField] at h)).2.1

/-- Claim C8: ManagedServer.SendRequest always returns a nil Go error,
always updates lastUsed, and synthesizes the internal-error envelope
(code -32603, well-formed: it decodes as a Response with that error)
when the server is not connected-and-initialized or when the transport
send fails. -/
theorem c8_sendrequest_total (s : ManagedServer) (rm : ManagedServer.ReqMap)
    (outcome : Except String RawJson) (now : Nat) :
    ((s.SendRequest rm outcome now).1.lastUsed = now) ∧
    (∃ raw, (s.SendRequest rm outcome now).2 = Except.ok raw) ∧
    (¬(s.connected = true ∧ s.initialized = true) →
      (s.SendRequest rm outcome now).2 =
        Except.ok (ManagedServer.synthEnvelope "Server not connected or initialized")) ∧
    (∀ msg, s.connected = true → s.initialized = true →
      s.transport.send outcome = Except.error msg →
      (s.SendRequest rm outcome now).2 = Except.ok (ManagedServer.synthEnvelope msg)) ∧
    (∀ msg, decodeResponse (ManagedServer.synthEnvelope msg) =
      Except.ok { jsonrpc := "2.0", id := none, result := none
                  error := some { code := InternalErrorCode, message := msg } }) := by
  refine ⟨?_, ?_, ?_, ?_, ?_⟩
  · by_cases hci : s.connected ∧ s.initialized
    · rcases hsend : { s with lastUsed := now }.transport.send outcome with e | resp <;>
        simp [ManagedServer.SendRequest, hci, hsend]
    · simp [ManagedServer.SendRequest, hci]
  · by_cases hci : s.connected ∧ s.initialized
    · rcases hsend : { s with lastUsed := now }.transport.send outcome with e | resp
      · exact ⟨ManagedServer.synthEnvelope e, by simp [ManagedServer.SendRequest, hci, hsend]⟩
      · exact ⟨resp, by simp [ManagedServer.SendRequest, hci, hsend]⟩
    · exact ⟨ManagedServer.synthEnvelope "Server not connected or initialized",
        by simp [ManagedServer.SendRequest, hci]⟩
  · intro hci
    simp [ManagedServer.SendRequest, hci]
  · intro msg hc hi hsend
    have hsend' : { s with lastUsed := now }.transport.send outcome = Except.error msg := hsend
    simp [ManagedServer.SendRequest, hc, hi, hsend']
  · intro msg
    rfl

/-- Claim C8, witness: a disconnected fresh server yields the synthesized
-32603 envelope with a nil error, and its lastUsed is updated. -/
theorem c8_sendrequest_total_witness :
    (srvDown.SendRequest { jsonrpc := "2.0", id := none, method := "m", params := none }
        (Except.ok (RawJson.wellFormed JVal.null)) 11).1.lastUsed = 11 ∧
    (srvDown.SendRequest { jsonrpc := "2.0", id := none, method := "m", params := none }
        (Except.ok (RawJson.wellFormed JVal.null)) 11).2 =
      Except.ok (ManagedServer.synthEnvelope "Server not connected or initialized") := by
  have h := c8_sendrequest_total srvDown
    { jsonrpc := "2.0", id := none, method := "m", params := none }
    (Except.ok (RawJson.wellFormed JVal.null)) 11
  exact ⟨h.1, h.2.2.1 (by simp [srvDown, ManagedServer.mk0])⟩

/-- Claim C9, counterexample: connect successfully, disconnect, reconnect
into a handshake that fails with an error object — the final state has
initialized = true (stale from the first cycle) and connected = false,
so the fresh connect cycle did not reset initialized to false before
applying the handshake result. -/
theorem c9_counterexample :
    (ManagedServer.run srvDown opsStaleInit).initialized = true ∧
    (ManagedServer.run srvDown opsStaleInit).connected = false := by
  exact ⟨rfl, rfl⟩

/-- Claim C9, amended: in every state reachable by a call sequence from a
fresh managed server, initialized = true implies connected was true after
some earlier call of the sequence; but initialized is never reset by a
fresh connect cycle — it keeps its previous value until a successful
handshake sets it. -/
theorem c9_initialized_history (init : ManagedServer) (ops : List ManagedServer.Op)
    (h0 : init.initialized = false) :
    ((ManagedServer.run init ops).initialized = true →
      ∃ k, (ManagedServer.run init (ops.take k)).connected = true) ∧
    (∀ s : ManagedServer, s.Disconnect.1.initialized = s.initialized) ∧
    (∀ (s : ManagedServer) (dialOk : Bool) (hs : Except String RawJson) (now : Nat),
      (s.Connect dialOk hs now).1.initialized = s.initialized ∨
        ((s.Connect dialOk hs now).1.initialized = true ∧
          (s.Connect dialOk hs now).1.connected = true)) := by
  refine ⟨?_, ManagedServer.Disconnect_initialized, ManagedServer.Connect_initialized⟩
  induction ops using List.reverseRecOn with
  | nil =>
    intro h
    rw [show ManagedServer.run init [] = init from rfl, h0] at h
    exact absurd h (by simp)
  | append_singleton l op ih =>
    intro h
    rw [ManagedServer.run_concat] at h
    rcases ManagedServer.step_initialized_mono (ManagedServer.run init l) op h with hi | hc
    · rcases ih hi with ⟨k, hk⟩
      refine ⟨min k l.length, ?_⟩
      have htk : (l ++ [op]).take (min k l.length) = l.take (min k l.length) :=
        List.take_append_of_le_length (min_le_right _ _)
      have htk2 : l.take (min k l.length) = l.take k := by
        rcases le_total k l.length with hkl | hkl
        · rw [min_eq_left hkl]
        · rw [min_eq_right hkl, List.take_length, List.take_of_length_le hkl]
      rw [htk, htk2]
      exact hk
    · refine ⟨(l ++ [op]).length, ?_⟩
      rw [List.take_length, ManagedServer.run_concat]
      exact hc

/-- Claim C9, witness: one successful connect reaches initialized = true,
and the theorem produces a point of the trace where connected held. -/
theorem c9_initialized_history_witness :
    ∃ k, (ManagedServer.run srvDown
      ([ManagedServer.Op.connect true hsNoError 1].take k)).connected = true :=
  (c9_initialized_history srvDown [ManagedServer.Op.connect true hsNoError 1] rfl).1 rfl

/-- Claim C10: after a Connect whose dial succeeds but whose handshake
fails with an error object, the managed server's connected flag is false
while the underlying transport still reports IsConnected() = true (no
Transport.Disconnect happened); Transport.Connect is an idempotent no-op
when already connected, so a later ManagedServer.Connect succeeds over the
existing connection re-running only the handshake — witnessed by a second
Connect whose dial oracle would fail if a fresh dial were attempted. -/
theorem c10_reconnect_handshake_only (s : ManagedServer)
    (fields fields2 em : List (String × JVal)) (now now2 : Nat)
    (hnc : s.connected = false)
    (htc : s.transport.connected = false)
    (herr : lookupField fields "error" = some (JVal.jobj em))
    (hok : lookupField fields2 "error" = none) :
    ((s.Connect true (Except.ok (RawJson.wellFormed (JVal.jobj fields))) now).1.connected
        = false) ∧
    ((s.Connect true (Except.ok (RawJson.wellFormed (JVal.jobj fields))) now).1.transport.isConnected
        = true) ∧
    (∀ t : TransportState, t.connected = true → t.connect false = (t, none)) ∧
    (((s.Connect true (Except.ok (RawJson.wellFormed (JVal.jobj fields))) now).1.Connect false
        (Except.ok (RawJson.wellFormed (JVal.jobj fields2))) now2).2 = none) ∧
    (((s.Connect true (Except.ok (RawJson.wellFormed (JVal.jobj fields))) now).1.Connect false
        (Except.ok (RawJson.wellFormed (JVal.jobj fields2))) now2).1.initialized = true) ∧
    (((s.Connect true (Except.ok (RawJson.wellFormed (JVal.jobj fields))) now).1.Connect false
        (Except.ok (RawJson.wellFormed (JVal.jobj fields2))) now2).1.connected = true) := by
  have hidem : ∀ t : TransportState, t.connected = true → t.connect false = (t, none) := by
    intro t ht
    simp [TransportState.connect, ht]
  have h1 := (ManagedServer.Connect_handshake_outcome s true fields now hnc (Or.inr rfl)).1
    em herr
  have hconn : s.transport.connect true = ({ connected := true }, none) := by
    simp [TransportState.connect, htc]
  have hs1 : (s.Connect true (Except.ok (RawJson.wellFormed (JVal.jobj fields))) now).1.transport
      = { connected := true } := by
    simp [ManagedServer.Connect, hnc, hconn, ManagedServer.initHandshake,
      TransportState.send, decodeMapFields, herr]
  have h2 := (ManagedServer.Connect_handshake_outcome
    (s.Connect true (Except.ok (RawJson.wellFormed (JVal.jobj fields))) now).1 false fields2 now2
    h1.1 (Or.inl (by rw [hs1]))).2
    (by intro em2 h; rw [hok] at h; exact Option.noConfusion h)
  exact ⟨h1.1, by rw [hs1]; rfl, hidem, h2.2.2, h2.2.1, h2.1⟩

/-- Claim C1, counterexample: a request with id 123 and the wrong version
gets the rejection envelope without any id; and a well-versioned request
with id 123 forwarded to a not-initialized server gets back the
ManagedServer's synthesized envelope, which carries no id — in both cases
the caller-supplied identifier is not preserved. -/
theorem c1_counterexample :
    (Router.Route mgrDown reqBadVersion 5).id = none ∧
    reqBadVersion.id = some (JVal.num 123) ∧
    (Router.Route mgrDown reqFwd 5).id = none ∧
    reqFwd.id = some (JVal.num 123) ∧
    (Router.Route mgrDown reqFwd 5).id ≠ reqFwd.id := by
  refine ⟨rfl, rfl, rfl, rfl, ?_⟩
  intro h
  rw [show (Router.Route mgrDown reqFwd 5).id = none from rfl] at h
  exact Option.noConfusion h

/-- Claim C1, amended: the caller's id is carried verbatim on the
gateway-local paths and on the error envelopes the Router itself
synthesizes (no-servers, send failure, undecodable upstream reply); the
version-rejection envelope carries no id at all, and on a successful
forward the decoded upstream envelope — including a ManagedServer's
locally synthesized one, which has no id — is returned as is, with
whatever id it carries. -/
theorem c1_id_preservation (m : Manager) (req : Request) (now : Nat) :
    (req.jsonrpc ≠ "2.0" → (Router.Route m req now).id = none) ∧
    (req.jsonrpc = "2.0" → isGatewayMethod req.method = true →
      (Router.Route m req now).id = req.id) ∧
    (req.jsonrpc = "2.0" → isGatewayMethod req.method = false →
      (Router.chosenTarget m req = none → (Router.Route m req now).id = req.id) ∧
      (∀ srv, Router.chosenTarget m req = some srv →
        ∀ raw, (srv.SendRequest (Router.buildReqMap req) srv.upstream now).2 = Except.ok raw →
          (decodeResponse raw = Except.error () → (Router.Route m req now).id = req.id) ∧
          (∀ r, decodeResponse raw = Except.ok r → Router.Route m req now = r))) := by
  refine ⟨?_, ?_, ?_⟩
  · intro hv
    rw [Router.Route_version m req now hv]
  · intro hv hg
    simp only [isGatewayMethod, Bool.or_eq_true, decide_eq_true_eq] at hg
    rcases hg with ((h | h) | h) | h
    · rw [show Router.Route m req now = Router.handleListServers m req from
        by simp [Router.Route, hv, h]]
      exact Router.handleListServers_id m req
    · rw [show Router.Route m req now = Router.handleGetServer m req from
        by simp [Router.Route, hv, h]]
      exact Router.handleGetServer_id m req
    · rw [show Router.Route m req now = Router.handleServerStatus m req from
        by simp [Router.Route, hv, h]]
      exact Router.handleServerStatus_id m req
    · rw [show Router.Route m req now = Router.handleCapabilities m req from
        by simp [Router.Route, hv, h]]
      exact Router.handleCapabilities_id m req
  · intro hv hg
    have hr : Router.Route m req now = Router.routeToServer m req now :=
      Router.Route_nonGateway m req now hv hg
    constructor
    · intro hct
      rw [hr]
      simp [Router.routeToServer, Router.routeToServerTraced, hct]
    · intro srv hct raw hraw
      constructor
      · intro hdec
        rw [hr]
        simp [Router.routeToServer, Router.routeToServerTraced, hct, hraw, hdec]
      · intro r hdec
        rw [hr]
        simp [Router.routeToServer, Router.routeToServerTraced, hct, hraw, hdec]

/-- Claim C1, witness for the amended theorem: the wrong-version case, a
gateway-local case with id 123, and a forwarded case that returns the
upstream (synthesized, id-less) envelope verbatim. -/
theorem c1_id_preservation_witness :
    (Router.Route mgrDown reqBadVersion 5).id = none ∧
    (Router.Route mgrUp reqGateway 5).id = reqGateway.id ∧
    Router.Route mgrDown reqFwd 5 =
      { jsonrpc := "2.0", id := none, result := none
        error := some { code := -32603, message := "Server not connected or initialized" } } := by
  refine ⟨?_, ?_, ?_⟩
  · exact (c1_id_preservation mgrDown reqBadVersion 5).1 (by simp [reqBadVersion])
  · exact (c1_id_preservation mgrUp reqGateway 5).2.1 rfl rfl
  · exact (((c1_id_preservation mgrDown reqFwd 5).2.2 rfl rfl).2 srvDown rfl
      (ManagedServer.synthEnvelope "Server not connected or initialized") rfl).2 _ rfl

/-- Claim C3: the Router resolves the target by explicit hint first, then
by method-prefix capability, then first registered server; an empty
registry yields the -32000 "No servers available" envelope (a code in the
server-error range) without any send. -/
theorem c3_target_priority (m : Manager) (req : Request) (now : Nat) :
    (req.jsonrpc = "2.0" → isGatewayMethod req.method = false →
      Router.Route m req now = Router.routeToServer m req now) ∧
    (∀ srv, Router.explicitTarget m req = some srv → Router.chosenTarget m req = some srv) ∧
    (Router.explicitTarget m req = none → Router.extractCapability req.method ≠ "" →
      ∀ s ss, m.ListServersByCapability (Router.extractCapability req.method) = s :: ss →
        Router.chosenTarget m req = some s) ∧
    (Router.explicitTarget m req = none →
      (Router.extractCapability req.method = "" ∨
        m.ListServersByCapability (Router.extractCapability req.method) = []) →
      Router.chosenTarget m req = (m.ListServers).head?) ∧
    (strHasPfx req.method "tools/" = true → Router.extractCapability req.method = "tools") ∧
    (strHasPfx req.method "resources/" = true →
      Router.extractCapability req.method = "resources") ∧
    (strHasPfx req.method "prompts/" = true → Router.extractCapability req.method = "prompts") ∧
    (m.servers = [] →
      Router.routeToServerTraced m req now =
        { resp := { jsonrpc := "2.0", id := req.id, result := none
                    error := some { code := ServerErrorEndCode, message := "No servers available" } }
          sent := none } ∧
      ServerErrorStartCode ≤ ServerErrorEndCode ∧ ServerErrorEndCode = -32000) := by
  refine ⟨Router.Route_nonGateway m req now, ?_, ?_, ?_, ?_, ?_, ?_, ?_⟩
  · intro srv h
    simp [Router.chosenTarget, Router.findTargetServer, h]
  · intro hexp hcap s ss hlist
    simp [Router.chosenTarget, Router.findTargetServer, hexp, hcap, hlist]
  · intro hexp hcases
    rcases hcases with hcap | hlist
    · simp [Router.chosenTarget, Router.findTargetServer, hexp, hcap, Manager.ListServers]
    · by_cases hcap : Router.extractCapability req.method = ""
      · simp [Router.chosenTarget, Router.findTargetServer, hexp, hcap, Manager.ListServers]
      · simp [Router.chosenTarget, Router.findTargetServer, hexp, hcap, hlist,
          Manager.ListServers]
  · intro h
    simp [Router.extractCapability, h]
  · intro h
    simp [Router.extractCapability, h, Router.resources_not_tools req.method h]
  · intro h
    simp [Router.extractCapability, h, Router.prompts_not_tools req.method h,
      Router.prompts_not_resources req.method h]
  · intro hempty
    have hexp := Router.explicitTarget_of_empty m req hempty
    have hct : Router.chosenTarget m req = none := by
      by_cases hcap : Router.extractCapability req.method = ""
      · simp [Router.chosenTarget, Router.findTargetServer, hexp, hcap, Manager.ListServers,
          hempty]
      · simp [Router.chosenTarget, Router.findTargetServer, hexp, hcap, Manager.ListServers,
          Manager.ListServersByCapability, hempty]
    refine ⟨?_, by decide, rfl⟩
    simp [Router.routeToServerTraced, hct]

/-- Claim C3, witness: a resolvable hint wins, and the "tools/" prefix
maps to the "tools" capability. -/
theorem c3_target_priority_witness :
    Router.chosenTarget mgrUp reqHint = some srvUp ∧
    Router.extractCapability reqTools.method = "tools" := by
  refine ⟨?_, ?_⟩
  · exact (c3_target_priority mgrUp reqHint 0).2.1 srvUp rfl
  · exact (c3_target_priority mgrUp reqTools 0).2.2.2.2.1 (by decide)

/-- Claim C4, counterexample: a forwarded request whose params carry the
"_server" hint is sent with its params passed through verbatim — the
reserved "_server" key is still present in the request handed to
SendRequest, not removed as the claim states. -/
theorem c4_counterexample :
    (Router.routeToServerTraced mgrUp reqHint 3).sent =
      some ("a", { jsonrpc := "2.0", id := some (JVal.num 7), method := "foo"
                   params := some (JVal.jobj [("_server", JVal.str "a"), ("x", JVal.num 1)]) }) ∧
    lookupField [("_server", JVal.str "a"), ("x", JVal.num 1)] "_server" =
      some (JVal.str "a") := by
  exact ⟨rfl, rfl⟩

/-- Claim C4, amended: the request sent upstream is the original envelope
re-encoded with version, id, method and params all passed through
unchanged — the "_server" hint is NOT removed; the "id" key is dropped
when the caller's id is nil and the "params" key when the raw params are
absent or do not decode as JSON. -/
theorem c4_forwarded_envelope (m : Manager) (req : Request) (now : Nat)
    (srv : ManagedServer) (hct : Router.chosenTarget m req = some srv) :
    (Router.routeToServerTraced m req now).sent = some (srv.name, Router.buildReqMap req) ∧
    (Router.buildReqMap req).jsonrpc = req.jsonrpc ∧
    (Router.buildReqMap req).id = req.id ∧
    (Router.buildReqMap req).method = req.method ∧
    (∀ v, req.params = some (RawJson.wellFormed v) → (Router.buildReqMap req).params = some v) ∧
    (req.params = none → (Router.buildReqMap req).params = none) ∧
    (∀ tag, req.params = some (RawJson.invalid tag) → (Router.buildReqMap req).params = none) := by
  refine ⟨?_, rfl, rfl, rfl, ?_, ?_, ?_⟩
  · rcases hsr : (srv.SendRequest (Router.buildReqMap req) srv.upstream now).2 with e | raw
    · simp [Router.routeToServerTraced, hct, hsr]
    · cases hdec : decodeResponse raw with
      | error u => simp [Router.routeToServerTraced, hct, hsr, hdec]
      | ok r => simp [Router.routeToServerTraced, hct, hsr, hdec]
  · intro v hv
    simp [Router.buildReqMap, hv]
  · intro hp
    simp [Router.buildReqMap, hp]
  · intro tag hp
    simp [Router.buildReqMap, hp]

/-- Claim C4, witness for the amended theorem at the hint-carrying
request. -/
theorem c4_forwarded_envelope_witness :
    (Router.routeToServerTraced mgrUp reqHint 3).sent =
      some (srvUp.name, Router.buildReqMap reqHint) ∧
    (Router.buildReqMap reqHint).params =
      some (JVal.jobj [("_server", JVal.str "a"), ("x", JVal.num 1)]) := by
  have h := c4_forwarded_envelope mgrUp reqHint 3 srvUp rfl
  exact ⟨h.1, h.2.2.2.2.1 _ rfl⟩

/-- Claim C5, counterexample: starting from health 1.0, three consecutive
error returns leave the score at 0.729, which is still above the 0.5
threshold — GetTransport still reuses the entry — contradicting the
claimed drop below the reuse threshold after three errors. -/
theorem c5_counterexample :
    poolAfterErrors 3 =
      [ { id := 0, connected := true, healthScore := 729 / 1000, createdAt := 0, lastUsed := 0
          requestCount := 0 } ] ∧
    (1 : ℚ) / 2 < 729 / 1000 ∧
    (Pool.GetTransport (poolAfterErrors 3) 1 4 99).1 =
      Except.ok { id := 0, connected := true, healthScore := 729 / 1000, createdAt := 0
                  lastUsed := 4, requestCount := 1 } := by
  refine ⟨?_, by norm_num, ?_⟩
  · norm_num [poolAfterErrors, Pool.ReturnTransport, Pool.updateHealth, entryHealthy]
  · norm_num [Pool.GetTransport, Pool.scanLoop, Pool.shiftRemove, poolAfterErrors,
      Pool.ReturnTransport, Pool.updateHealth, entryHealthy]

/-- Claim C5, amended: the health score starts at 1.0 (GetTransport
creates entries so), an error return multiplies it by 0.9 — strictly
decreasing for a positive score — and a success return averages it with
1.0; starting from 1.0, seven (not three) consecutive error returns are
needed to drop below the 0.5 reuse threshold, after which GetTransport
refuses to reuse the entry. -/
theorem c5_health_dynamics (sc : ℚ) (maxPerType now freshId : Nat) :
    (0 < sc → Pool.updateHealth sc true < sc) ∧
    Pool.updateHealth sc false = (sc + 1) / 2 ∧
    (0 < maxPerType →
      (Pool.GetTransport [] maxPerType now freshId).1 =
        Except.ok { id := freshId, connected := false, healthScore := 1, createdAt := now
                    lastUsed := now, requestCount := 0 }) ∧
    poolAfterErrors 7 =
      [ { id := 0, connected := true, healthScore := 4782969 / 10000000, createdAt := 0
          lastUsed := 0, requestCount := 0 } ] ∧
    (4782969 : ℚ) / 10000000 < 1 / 2 ∧
    (Pool.GetTransport (poolAfterErrors 7) 1 now freshId).1 =
      Except.error "connection pool exhausted" := by
  refine ⟨?_, ?_, ?_, ?_, by norm_num, ?_⟩
  · intro h
    have hm : sc * (9 / 10) < sc * 1 :=
      mul_lt_mul_of_pos_left (by norm_num) h
    simpa [Pool.updateHealth] using hm
  · simp [Pool.updateHealth]
  · intro h
    simp [Pool.GetTransport, Pool.scanLoop, h]
  · norm_num [poolAfterErrors, Pool.ReturnTransport, Pool.updateHealth, entryHealthy]
  · norm_num [Pool.GetTransport, Pool.scanLoop, Pool.shiftRemove, poolAfterErrors,
      Pool.ReturnTransport, Pool.updateHealth, entryHealthy]

/-- Claim C5, witness: the amended theorem at score 1 and an empty
one-slot pool. -/
theorem c5_health_dynamics_witness :
    Pool.updateHealth 1 true < 1 ∧
    (Pool.GetTransport [] 1 0 7).1 =
      Except.ok { id := 7, connected := false, healthScore := 1, createdAt := 0, lastUsed := 0
                  requestCount := 0 } := by
  have h := c5_health_dynamics 1 1 0 7
  exact ⟨h.1 (by norm_num), h.2.2.1 (by norm_num)⟩

/-- Claim C6 (code bug): on [disconnected, eligible-1, eligible-2] the
scan evicts entry 0 and — because the eviction shifts the shared backing
array under the running index — skips entry 1 and returns entry 2 instead
of the first eligible entry; and on [disconnected, disconnected] the
second eviction fails to shrink the pool, leaving a disconnected entry
that was encountered during the scan in the pool. -/
theorem c6_scan_bug :
    (Pool.GetTransport poolSkip 5 9 99).1 =
      Except.ok { id := 2, connected := true, healthScore := 1, createdAt := 0, lastUsed := 9
                  requestCount := 1 } ∧
    poolSkip[1]? =
      some { id := 1, connected := true, healthScore := 1, createdAt := 0, lastUsed := 0
             requestCount := 0 } ∧
    (1 : ℚ) / 2 < 1 ∧
    (Pool.GetTransport poolTwoDown 5 9 99).2 =
      [ { id := 1, connected := false, healthScore := 1, createdAt := 0, lastUsed := 0
          requestCount := 0 }
        , { id := 99, connected := false, healthScore := 1, createdAt := 9, lastUsed := 9
            requestCount := 0 } ] := by
  refine ⟨?_, rfl, by norm_num, ?_⟩
  · norm_num [Pool.GetTransport, Pool.scanLoop, Pool.shiftRemove, poolSkip]
  · norm_num [Pool.GetTransport, Pool.scanLoop, Pool.shiftRemove, poolTwoDown]

/-- Claim C7: Manager.Start returns nil unconditionally; each server is
connected with at most 3 attempts; the waits between consecutive attempts
are attempt-number × 1 second (so the wait list is always an initial run
1, 2, ...); a backoff wait larger than the remaining deadline budget
aborts with the context error; and a budget covering all backoffs never
aborts early. -/
theorem c7_start_retry (outcomes : List (Nat → Bool)) (outcome : Nat → Bool) (budget : Nat) :
    (Manager.Start outcomes budget).1 = none ∧
    (Manager.connectWithRetry outcome 3 budget).attempts ≤ 3 ∧
    (Manager.connectWithRetry outcome 3 budget).waits =
      (List.range (Manager.connectWithRetry outcome 3 budget).waits.length).map
        (fun k => k + 1) ∧
    (outcome 1 = false → budget < 1 →
      Manager.connectWithRetry outcome 3 budget =
        { result := Manager.RetryResult.ctxErr, attempts := 1, waits := [], remaining := 0 }) ∧
    (3 ≤ budget →
      (Manager.connectWithRetry outcome 3 budget).result ≠ Manager.RetryResult.ctxErr) := by
  refine ⟨rfl, ?_, ?_, ?_, ?_⟩
  · cases o1 : outcome 1 <;> cases o2 : outcome 2 <;> cases o3 : outcome 3 <;>
      by_cases h1 : budget < 1 <;> by_cases h2 : budget - 1 < 2 <;>
      simp [Manager.connectWithRetry, Manager.retryLoop, o1, o2, o3, h1, h2]
  · cases o1 : outcome 1 <;> cases o2 : outcome 2 <;> cases o3 : outcome 3 <;>
      by_cases h1 : budget < 1 <;> by_cases h2 : budget - 1 < 2 <;>
      simp [Manager.connectWithRetry, Manager.retryLoop, o1, o2, o3, h1, h2] <;>
      decide
  · intro ho hb
    simp [Manager.connectWithRetry, Manager.retryLoop, ho, hb]
  · intro hb
    have h1 : ¬budget < 1 := by omega
    have h2 : ¬budget - 1 < 2 := by omega
    cases o1 : outcome 1 <;> cases o2 : outcome 2 <;> cases o3 : outcome 3 <;>
      simp [Manager.connectWithRetry, Manager.retryLoop, o1, o2, o3, h1, h2]

/-- Claim C7, witness: Start over one server with a failing connect
returns nil, and a zero budget aborts the first backoff wait with the
context error after one attempt. -/
theorem c7_start_retry_witness :
    (Manager.Start [fun _ => false] 0).1 = none ∧
    Manager.connectWithRetry (fun _ => false) 3 0 =
      { result := Manager.RetryResult.ctxErr, attempts := 1, waits := [], remaining := 0 } := by
  have h := c7_start_retry [fun _ => false] (fun _ => false) 0
  exact ⟨h.1, h.2.2.2.1 rfl (by norm_num)⟩

/-- Claim C10, witness: the theorem applied to a concrete fresh server, a
concrete failing handshake and a concrete succeeding one. -/
theorem c10_reconnect_handshake_only_witness :
    ((srvDown.Connect true
        (Except.ok (RawJson.wellFormed (JVal.jobj [("error", JVal.jobj [])]))) 1).1.transport.isConnected
        = true) ∧
    (((srvDown.Connect true
        (Except.ok (RawJson.wellFormed (JVal.jobj [("error", JVal.jobj [])]))) 1).1.Connect false
        (Except.ok (RawJson.wellFormed (JVal.jobj [("result", JVal.null)]))) 2).1.initialized
        = true) := by
  have h := c10_reconnect_handshake_only srvDown
    [("error", JVal.jobj [])] [("result", JVal.null)] [] 1 2 rfl rfl rfl rfl
  exact ⟨h.2.1, h.2.2.2.2.1⟩

end Claims

end Mcpgate
